import Mathlib

/-!
Verification of the whatalang runtime (lexer/parser/state-store/reactive
engine pipeline) against its specification.  The Python sources are embedded
shallowly: dynamic values become the tagged `Value` type, the mutable state
store becomes explicit state passing, Python exceptions become `StoreErr`
results, and the interpreter's output list becomes a list of structured
`Line` values (one constructor per `f"..."` shape the source appends, so
claims about which lines appear do not depend on string formatting).
-/

/-! ## Dynamic runtime values

Python runtime values flowing through the interpreter: scalars, dicts
(insertion-ordered association lists, as CPython dicts are insertion ordered)
and lists.  A Python float is modelled by the rational number the stored
double denotes; the language never does float arithmetic, only comparisons,
and comparing two doubles is exactly comparing the rationals they denote. -/

inductive Value where
  | null : Value
  | bool (b : Bool) : Value
  | int (n : Int) : Value
  | float (q : ℚ) : Value
  | str (s : String) : Value
  | obj (fields : List (String × Value)) : Value
  | arr (elems : List Value) : Value
  deriving Repr

/-- The error kinds of the state store (`src/state/__init__.py`):
`KeyError` = `pathNotFound`, `IndexError` = `indexOOB`,
`TypeError` = `typeMismatch`, `ValueError` on an empty path = `emptyPath`. -/
inductive StoreErr where
  | pathNotFound : StoreErr
  | indexOOB : StoreErr
  | typeMismatch : StoreErr
  | emptyPath : StoreErr
  deriving Repr, DecidableEq

/-- Python `part in current` / `current[part]` on a dict: first binding wins
(a dict built through `objInsert` never has a duplicate key). -/
def objFind : List (String × Value) → String → Option Value
  | [], _ => none
  | (k, v) :: rest, key => if k = key then some v else objFind rest key

/-- Python `current[part] = value` on a dict: overwrite the existing binding
in place (CPython keeps the key position), otherwise append. -/
def objInsert : List (String × Value) → String → Value → List (String × Value)
  | [], key, v => [(key, v)]
  | (k, w) :: rest, key, v =>
    if k = key then (k, v) :: rest else (k, w) :: objInsert rest key v

/-- Python `del current[part]` on a dict whose key is present. -/
def objErase : List (String × Value) → String → List (String × Value)
  | [], _ => []
  | (k, w) :: rest, key => if k = key then rest else (k, w) :: objErase rest key

/-- An ASCII digit, as Python `str.isdigit` accepts for path segments. -/
def isDigitChar (c : Char) : Bool := 48 ≤ c.toNat && c.toNat ≤ 57

/-- Python `part.isdigit()`: non-empty and all digits. -/
def pyIsDigit (s : String) : Bool := !s.data.isEmpty && s.data.all isDigitChar

/-- Python `int(part)` for a string of digits. -/
def pyToNat (s : String) : Nat := s.data.foldl (fun a c => a * 10 + (c.toNat - 48)) 0

/-! ## StateManager (src/state/__init__.py)

The store's root object is passed explicitly; each operation returns the
store after the call.  `set` mutates the tree in place in Python, so it
returns the (possibly partially mutated) tree *together with* the error:
auto-creating a top-level key and then failing deeper leaves the created
key behind, exactly as the mutation-by-reference source does. -/

namespace StateManager

/-- `StateManager.get` (lines 21–37): walk the path; a dict without the key,
a non-digit segment on a list, or any scalar reached mid-path raises
`KeyError` (pathNotFound); a digit segment out of `[0, len)` on a list
raises `IndexError` (indexOOB). -/
def get : Value → List String → Except StoreErr Value
  | v, [] => .ok v
  | .obj fs, part :: rest =>
    match objFind fs part with
    | some child => get child rest
    | none => .error .pathNotFound
  | .arr xs, part :: rest =>
    if _h : pyIsDigit part ∧ pyToNat part < xs.length then
      get (xs.get ⟨pyToNat part, _h.2⟩) rest
    else if pyIsDigit part then .error .indexOOB
    else .error .pathNotFound
  | _, _ :: _ => .error .pathNotFound

/-- The final assignment of `StateManager.set` (lines 66–76): a dict key is
created or overwritten; a list slot is overwritten only inside bounds
(`IndexError` past them, never an append); anything else is `TypeError`. -/
def setFinal : Value → String → Value → Value × Option StoreErr
  | .obj fs, part, v => (.obj (objInsert fs part v), none)
  | .arr xs, part, v =>
    if pyIsDigit part then
      if pyToNat part < xs.length then (.arr (xs.set (pyToNat part) v), none)
      else (.arr xs, some .indexOOB)
    else (.arr xs, some .typeMismatch)
  | cur, _, _ => (cur, some .typeMismatch)

/-- The navigation loop plus final assignment of `StateManager.set`
(lines 44–76).  `isRoot` mirrors `current is self.state`: a missing key is
auto-created (as `{}`) only there; below the root it is `KeyError`.  A list
is entered through an in-bounds digit segment (`IndexError` otherwise);
any other container shape mid-path is `TypeError`.  The returned tree keeps
every mutation made before an error, as the in-place source does.  (The
empty-path case is unreachable: `set` rejects an empty path first.) -/
def setGo : Value → Bool → List String → Value → Value × Option StoreErr
  | cur, _, [], _ => (cur, some .emptyPath)
  | cur, _, [part], v => setFinal cur part v
  | .obj fs, isRoot, part :: rest, v =>
    match objFind fs part with
    | some child =>
      let r := setGo child false rest v
      (.obj (objInsert fs part r.1), r.2)
    | none =>
      if isRoot then
        let r := setGo (.obj []) false rest v
        (.obj (objInsert fs part r.1), r.2)
      else (.obj fs, some .pathNotFound)
  | .arr xs, _, part :: rest, v =>
    if _h : pyIsDigit part ∧ pyToNat part < xs.length then
      let r := setGo (xs.get ⟨pyToNat part, _h.2⟩) false rest v
      (.arr (xs.set (pyToNat part) r.1), r.2)
    else if pyIsDigit part then (.arr xs, some .indexOOB)
    else (.arr xs, some .typeMismatch)
  | cur, _, _ :: _, _ => (cur, some .typeMismatch)

/-- `StateManager.set` (lines 39–76); an empty path raises `ValueError`. -/
def set (root : Value) (path : List String) (v : Value) : Value × Option StoreErr :=
  match path with
  | [] => (root, some .emptyPath)
  | _ => setGo root true path v

/-- The final deletion step of `StateManager.delete` (lines 99–109): remove a
present dict key or an in-bounds list index (`IndexError` past bounds);
anything else is `KeyError`. -/
def deleteFinal : Value → String → Except StoreErr Value
  | .obj fs, part =>
    match objFind fs part with
    | some _ => .ok (.obj (objErase fs part))
    | none => .error .pathNotFound
  | .arr xs, part =>
    if pyIsDigit part then
      if pyToNat part < xs.length then .ok (.arr (xs.eraseIdx (pyToNat part)))
      else .error .indexOOB
    else .error .pathNotFound
  | _, _ => .error .pathNotFound

/-- `StateManager.delete` (lines 78–109): navigate exactly as `get` does,
then delete the terminal key/index.  List deletion shifts later elements
down (`del current[index]`). -/
def delete : Value → List String → Except StoreErr Value
  | _, [] => .error .emptyPath
  | cur, [part] => deleteFinal cur part
  | .obj fs, part :: rest =>
    match objFind fs part with
    | some child =>
      match delete child rest with
      | .ok child2 => .ok (.obj (objInsert fs part child2))
      | .error e => .error e
    | none => .error .pathNotFound
  | .arr xs, part :: rest =>
    if _h : pyIsDigit part ∧ pyToNat part < xs.length then
      match delete (xs.get ⟨pyToNat part, _h.2⟩) rest with
      | .ok child2 => .ok (.arr (xs.set (pyToNat part) child2))
      | .error e => .error e
    else if pyIsDigit part then .error .indexOOB
    else .error .pathNotFound
  | _, _ :: _ => .error .pathNotFound

end StateManager

/-! ## Python comparison semantics

`ReactiveEngine.evaluate_condition` compares arbitrary runtime values with
the native Python operators.  `pyEq` is total (`==` never raises on these
values); the ordering comparisons return `none` where Python raises
`TypeError` (cross-category operands, dicts, `None`).  Booleans are numeric
in Python (`True == 1`), and ints and floats compare exactly. -/

/-- The numeric content of a value, when Python treats it as a number. -/
def numVal : Value → Option ℚ
  | .bool b => some (if b then 1 else 0)
  | .int n => some (n : ℚ)
  | .float q => some q
  | _ => none

mutual

/-- Python `==` on runtime values: numeric values compare by value across
tags, strings and `None` by themselves, lists pointwise, dicts by key set
and per-key values (insertion order never matters); any other pair of tags
is unequal.  Never raises. -/
def pyEq : Value → Value → Bool
  | .null, .null => true
  | .str s, .str t => s = t
  | .arr xs, .arr ys => pyEqList xs ys
  | .obj fs, .obj gs => fs.length = gs.length && pyEqFields fs gs
  | x, y =>
    match numVal x, numVal y with
    | some a, some b => a = b
    | _, _ => false

def pyEqList : List Value → List Value → Bool
  | [], [] => true
  | x :: xs, y :: ys => pyEq x y && pyEqList xs ys
  | _, _ => false

def pyEqFields : List (String × Value) → List (String × Value) → Bool
  | [], _ => true
  | (k, v) :: rest, gs =>
    (match objFind gs k with
     | some w => pyEq v w
     | none => false) && pyEqFields rest gs

end

mutual

/-- Python `<`: numbers by value, strings lexicographically by code point,
lists lexicographically; every other pair (`None`, dicts, cross-category
operands) raises `TypeError`, modelled as `none`. -/
def pyLt : Value → Value → Option Bool
  | .str s, .str t => some (decide (s < t))
  | .arr xs, .arr ys => pyLexLt xs ys
  | x, y =>
    match numVal x, numVal y with
    | some a, some b => some (decide (a < b))
    | _, _ => none

/-- Python list `<`: skip equal heads, then compare the first differing
pair; a strict prefix is smaller.  A differing incomparable pair raises. -/
def pyLexLt : List Value → List Value → Option Bool
  | [], [] => some false
  | [], _ :: _ => some true
  | _ :: _, [] => some false
  | x :: xs, y :: ys => if pyEq x y then pyLexLt xs ys else pyLt x y

end

mutual

/-- Python `<=`: like `pyLt`, with prefixes and equal heads allowed. -/
def pyLe : Value → Value → Option Bool
  | .str s, .str t => some (decide (s ≤ t))
  | .arr xs, .arr ys => pyLexLe xs ys
  | x, y =>
    match numVal x, numVal y with
    | some a, some b => some (decide (a ≤ b))
    | _, _ => none

def pyLexLe : List Value → List Value → Option Bool
  | [], _ => some true
  | _ :: _, [] => some false
  | x :: xs, y :: ys => if pyEq x y then pyLexLe xs ys else pyLt x y

end

/-- Python `x > y` (for these builtin types, the mirror of `y < x`). -/
def pyGt (x y : Value) : Option Bool := pyLt y x

/-- Python `x >= y` (the mirror of `y <= x`). -/
def pyGe (x y : Value) : Option Bool := pyLe y x

/-! ## AST (src/parser/__init__.py, classes)

`Expr` covers the parser's value/expression nodes (`Literal`, `Object`,
`Array`, `Identifier`); `Literal` keeps its `literal_type` tag.  A path part
is either a plain string segment (dotted identifiers and numeric indices)
or a bracketed embedded expression. -/

inductive Expr where
  | lit (v : Value) (tag : String) : Expr
  | objLit (pairs : List (String × Expr)) : Expr
  | arrLit (elems : List Expr) : Expr
  | ident (name : String) : Expr
  /-- The Python `None` that `_parse_value` returns for an unrecognized
  token; only `_parse_array` stores it in an AST (other callers substitute
  a placeholder). -/
  | missing : Expr
  deriving Repr

inductive PathPart where
  | seg (s : String) : PathPart
  | idx (e : Expr) : PathPart
  deriving Repr

/-- Modelled from the spec: the react-statement parser (`whatalang/parser`)
is not among the source files, only its callers and tests are.  Per §4.4 a
condition's comparison expression is "a literal value, or an identifier
looked up as a single top-level state key". -/
inductive CondExpr where
  | lit (v : Value) : CondExpr
  | ident (name : String) : CondExpr
  deriving Repr

mutual

/-- Statements.  `reactStmt` is `ReactStatement(target, conditions, actions)`;
its target is a plain dotted path (list of string segments), as the react
grammar of §4.2 and the tests build it. -/
inductive Stmt where
  | stateDecl (pairs : List (String × Expr)) : Stmt
  | setStmt (path : List PathPart) (value : Expr) : Stmt
  | printStmt (e : Expr) : Stmt
  | reactStmt (target : List String) (conditions : List RCond)
      (actions : List Stmt) : Stmt

/-- `ReactiveCondition(operator, value, actions)`. -/
inductive RCond where
  | mk (operator : String) (value : CondExpr) (actions : List Stmt) : RCond

end

def RCond.operator : RCond → String
  | .mk op _ _ => op

def RCond.value : RCond → CondExpr
  | .mk _ v _ => v

def RCond.actions : RCond → List Stmt
  | .mk _ _ acts => acts

/-- The Python class name of a statement, as `type(action).__name__`. -/
def Stmt.typeName : Stmt → String
  | .stateDecl _ => "StateDeclaration"
  | .setStmt _ _ => "SetStatement"
  | .printStmt _ => "PrintStatement"
  | .reactStmt _ _ _ => "ReactStatement"

/-! ## Output lines

Each constructor stands for one `f"..."` shape the interpreters append to
`self.output`; claims about the output concern which lines appear, not the
exact formatting of the strings. -/

inductive Line where
  | registered (target : List String) : Line
  | stateInit (pairs : Nat) : Line
  | setOk (path : List String) (v : Value) : Line
  | warnCouldNotSet (path : List String) (e : StoreErr) : Line
  | reactiveTrigger (shownPath : List String) (op : String) (condValue : Value) : Line
  | executing (typeName : String) : Line
  | currentState : Line
  | stateEntry (indent : Nat) (key : String) (v : Value) : Line
  | stateIndexEntry (indent : Nat) (i : Nat) (v : Value) : Line
  | printValue (name : String) (v : Value) : Line
  | printNotFound (name : String) : Line
  | printRaw (v : Value) : Line
  | warnIdentNotFound (name : String) : Line
  | warnUnknownStmt (typeName : String) : Line
  | errorLine (e : StoreErr) : Line
  deriving Repr

/-! ## ReactiveEngine (src/reactive.py) -/

namespace ReactiveEngine

/-- `ReactiveEngine._paths_match` (lines 71–82): exact match, or the changed
path is a proper prefix of the reactive path. -/
def paths_match (reactive_path changed_path : List String) : Bool :=
  if reactive_path = changed_path then true
  else if changed_path.length < reactive_path.length then
    decide (changed_path = reactive_path.take changed_path.length)
  else false

/-- `ReactiveEngine._evaluate_expression` (lines 45–56): a literal gives its
value; an identifier is looked up as a single top-level key, with a missing
key (`KeyError`) giving `None`. -/
def evaluate_expression (store : Value) : CondExpr → Value
  | .lit v => v
  | .ident n =>
    match StateManager.get store [n] with
    | .ok v => v
    | .error _ => .null

/-- `ReactiveEngine.evaluate_condition` (lines 20–43): compare the target
value against the resolved condition value with the condition's operator;
an unrecognized operator falls through to `==`; a comparison Python would
raise on (`none`) makes the condition false. -/
def evaluate_condition (store : Value) (condition : RCond) (target_value : Value) :
    Bool :=
  let condition_value := evaluate_expression store condition.value
  if condition.operator = "==" then pyEq target_value condition_value
  else if condition.operator = "!=" then !pyEq target_value condition_value
  else if condition.operator = ">" then (pyGt target_value condition_value).getD false
  else if condition.operator = "<" then (pyLt target_value condition_value).getD false
  else if condition.operator = ">=" then (pyGe target_value condition_value).getD false
  else if condition.operator = "<=" then (pyLe target_value condition_value).getD false
  else pyEq target_value condition_value

/-- One entry of the `triggered_actions` list (lines 100–106). -/
structure Trigger where
  condition : RCond
  action : Stmt
  target_value : Value
  condition_value : Value

/-- `ReactiveEngine._evaluate_reactive_statement` (lines 84–108): resolve the
rule's target (a missing target — `KeyError` — silently yields no triggers,
but an `IndexError` from the lookup propagates); every condition that
evaluates true contributes one trigger per action, in order. -/
def evaluate_reactive_statement (store : Value) (target : List String)
    (conditions : List RCond) : Except StoreErr (List Trigger) :=
  match StateManager.get store target with
  | .error .pathNotFound => .ok []
  | .error e => .error e
  | .ok target_value =>
    .ok (conditions.flatMap fun c =>
      if evaluate_condition store c target_value then
        c.actions.map fun a =>
          { condition := c, action := a, target_value := target_value,
            condition_value := evaluate_expression store c.value }
      else [])

/-- A registered `ReactStatement` as the store's reactive registry holds it:
target path, `when` conditions, and the (never fired) default actions. -/
structure ReactData where
  target : List String
  conditions : List RCond
  defaultActions : List Stmt

/-- `ReactiveEngine.check_reactive_statements` (lines 58–69): scan the
registered react statements in registration order and collect the triggers
of every rule whose target matches the changed path. -/
def check_reactive_statements (store : Value) (reactives : List ReactData)
    (changed_path : List String) : Except StoreErr (List Trigger) :=
  match reactives with
  | [] => .ok []
  | rs :: rest =>
    if paths_match rs.target changed_path then
      match evaluate_reactive_statement store rs.target rs.conditions with
      | .error e => .error e
      | .ok ts =>
        match check_reactive_statements store rest changed_path with
        | .error e => .error e
        | .ok more => .ok (ts ++ more)
    else check_reactive_statements store rest changed_path

/-- `ReactiveEngine.execute_reactive_actions` (lines 110–123): two lines per
trigger.  The trigger dict never holds a `target_path` key, so the shown
path is always the literal `["unknown"]` fallback. -/
def execute_reactive_actions (triggered : List Trigger) : List Line :=
  triggered.flatMap fun t =>
    [Line.reactiveTrigger ["unknown"] t.condition.operator t.condition_value,
     Line.executing t.action.typeName]

end ReactiveEngine

/-! ## Expression and path evaluation (shared by both interpreters)

`Interpreter._evaluate_value` / `_evaluate_path` / `_print_state_recursive`
(src/state/__init__.py lines 211–258) and the `ReactiveInterpreter` methods
of the same names (src/reactive.py lines 238–285) are textually identical,
so they are embedded once.  Warnings appended to `self.output` during
evaluation are returned alongside the result. -/

/-- Python `str(value)`.  Exact for the scalars the interpreter stringifies
in computed path segments; the float/dict/list renderings are abbreviated
tags (no claim exercises a computed non-integer path segment). -/
def pyStr : Value → String
  | .null => "None"
  | .bool b => if b then "True" else "False"
  | .int n => toString n
  | .float q => toString q
  | .str s => s
  | .obj _ => "dict"
  | .arr _ => "list"

mutual

/-- `_evaluate_value`: literals yield their value; objects and arrays are
rebuilt recursively; an identifier is a top-level lookup, and a missing one
warns and falls back to the identifier name as a string (only `KeyError`
can reach the handler — the root is always a dict).  A parser `None`
placeholder hits the final `str(value)` fallback, giving the string
`None`. -/
def evaluate_value (store : Value) : Expr → Value × List Line
  | .lit v _ => (v, [])
  | .objLit pairs =>
    let r := evaluate_value_pairs store pairs
    (.obj (r.1.foldl (fun acc kv => objInsert acc kv.1 kv.2) []), r.2)
  | .arrLit elems =>
    let r := evaluate_value_elems store elems
    (.arr r.1, r.2)
  | .ident n =>
    match StateManager.get store [n] with
    | .ok v => (v, [])
    | .error _ => (.str n, [Line.warnIdentNotFound n])
  | .missing => (.str "None", [])

def evaluate_value_pairs (store : Value) :
    List (String × Expr) → List (String × Value) × List Line
  | [] => ([], [])
  | (k, e) :: rest =>
    let r := evaluate_value store e
    let r2 := evaluate_value_pairs store rest
    ((k, r.1) :: r2.1, r.2 ++ r2.2)

def evaluate_value_elems (store : Value) : List Expr → List Value × List Line
  | [] => ([], [])
  | e :: rest =>
    let r := evaluate_value store e
    let r2 := evaluate_value_elems store rest
    (r.1 :: r2.1, r.2 ++ r2.2)

end

/-- `_evaluate_path`: string segments pass through, a bracketed identifier
contributes its name, any other bracketed expression is evaluated and
stringified. -/
def evaluate_path (store : Value) : List PathPart → List String × List Line
  | [] => ([], [])
  | .seg s :: rest =>
    let r := evaluate_path store rest
    (s :: r.1, r.2)
  | .idx (.ident n) :: rest =>
    let r := evaluate_path store rest
    (n :: r.1, r.2)
  | .idx e :: rest =>
    let v := evaluate_value store e
    let r := evaluate_path store rest
    (pyStr v.1 :: r.1, v.2 ++ r.2)

/-- A dict or a list, for `isinstance(value, (dict, list))`. -/
def Value.isContainer : Value → Bool
  | .obj _ => true
  | .arr _ => true
  | _ => false

mutual

/-- `_print_state_recursive`: one line per entry, recursing two spaces
deeper into nested containers. -/
def print_state_recursive (s : Value) (indent : Nat) : List Line :=
  match s with
  | .obj fs => print_state_fields fs indent
  | .arr xs => print_state_elems xs 0 indent
  | _ => []

def print_state_fields : List (String × Value) → Nat → List Line
  | [], _ => []
  | (k, v) :: rest, indent =>
    Line.stateEntry indent k v ::
      ((if v.isContainer then print_state_recursive v (indent + 2) else []) ++
        print_state_fields rest indent)

def print_state_elems : List Value → Nat → Nat → List Line
  | [], _, _ => []
  | v :: rest, i, indent =>
    Line.stateIndexEntry indent i v ::
      ((if v.isContainer then print_state_recursive v (indent + 2) else []) ++
        print_state_elems rest (i + 1) indent)

end

/-! ## Interpreter (src/state/__init__.py, lines 141–267)

The interpreter's mutable `self.state_manager` / `self.output` become the
record `InterpSt`; an uncaught Python exception becomes `some err` in the
second component, which `run` turns into the top-level generic error line
(aborting the remaining statements, lines 152–156). -/

structure InterpSt where
  store : Value
  output : List Line
  deriving Repr

namespace Interpreter

/-- The loop of `_execute_state_declaration` (lines 171–176): evaluate and
`set` each pair at its top-level key; an exception there would propagate. -/
def run_state_pairs (st : InterpSt) :
    List (String × Expr) → InterpSt × Option StoreErr
  | [] => (st, none)
  | (k, e) :: rest =>
    let r := evaluate_value st.store e
    let s := StateManager.set st.store [k] r.1
    match s.2 with
    | some err => ({ store := s.1, output := st.output ++ r.2 }, some err)
    | none => run_state_pairs { store := s.1, output := st.output ++ r.2 } rest

/-- `_execute_state_declaration` (lines 171–178). -/
def execute_state_declaration (st : InterpSt) (pairs : List (String × Expr)) :
    InterpSt × Option StoreErr :=
  match run_state_pairs st pairs with
  | (st2, none) =>
    ({ st2 with output := st2.output ++ [Line.stateInit pairs.length] }, none)
  | r => r

/-- `Interpreter._execute_set_statement` (lines 180–189): the store write is
wrapped in `try/except (KeyError, IndexError, TypeError)`, downgrading those
three to a warning line; a `ValueError` (empty path) is not caught. -/
def execute_set_statement (st : InterpSt) (path : List PathPart) (value : Expr) :
    InterpSt × Option StoreErr :=
  let p := evaluate_path st.store path
  let v := evaluate_value st.store value
  let st1 : InterpSt := { st with output := st.output ++ p.2 ++ v.2 }
  let r := StateManager.set st1.store p.1 v.1
  match r.2 with
  | none => ({ store := r.1, output := st1.output ++ [Line.setOk p.1 v.1] }, none)
  | some .emptyPath => ({ st1 with store := r.1 }, some .emptyPath)
  | some e => ({ store := r.1, output := st1.output ++ [Line.warnCouldNotSet p.1 e] }, none)

/-- `_execute_print_statement` (lines 191–209): the identifier `state` dumps
the store; another identifier is a top-level lookup whose `KeyError` becomes
a not-found line; any other expression is evaluated and printed. -/
def execute_print_statement (st : InterpSt) (e : Expr) : InterpSt × Option StoreErr :=
  match e with
  | .ident n =>
    if n = "state" then
      ({ st with output := st.output ++ Line.currentState ::
          print_state_recursive st.store 2 }, none)
    else
      match StateManager.get st.store [n] with
      | .ok v => ({ st with output := st.output ++ [Line.printValue n v] }, none)
      | .error .pathNotFound =>
        ({ st with output := st.output ++ [Line.printNotFound n] }, none)
      | .error e2 => (st, some e2)
  | _ =>
    let r := evaluate_value st.store e
    ({ st with output := st.output ++ r.2 ++ [Line.printRaw r.1] }, none)

/-- `_execute_statement` (lines 160–169): dispatch on the statement class;
anything else (a `ReactStatement` reaching the plain interpreter) is an
unknown-statement warning. -/
def execute_statement (st : InterpSt) : Stmt → InterpSt × Option StoreErr
  | .stateDecl pairs => execute_state_declaration st pairs
  | .setStmt p v => execute_set_statement st p v
  | .printStmt e => execute_print_statement st e
  | s => ({ st with output := st.output ++ [Line.warnUnknownStmt s.typeName] }, none)

/-- The statement loop of `execute` (lines 148–158): an uncaught exception
appends one generic error line and abandons the remaining statements. -/
def run (st : InterpSt) : List Stmt → InterpSt
  | [] => st
  | s :: rest =>
    match execute_statement st s with
    | (st2, none) => run st2 rest
    | (st2, some e) => { st2 with output := st2.output ++ [Line.errorLine e] }

/-- `Interpreter.execute` (lines 148–158) on a fresh interpreter. -/
def execute (statements : List Stmt) : InterpSt :=
  run { store := .obj [], output := [] } statements

end Interpreter

/-! ## ReactiveInterpreter (src/reactive.py, lines 134–296)

Same statement execution as `Interpreter` — the state-declaration and print
method bodies are textually identical — except that
`ReactiveInterpreter._execute_set_statement` (lines 210–216) has **no**
`try/except` around the store write, so every store error propagates to the
top-level handler of `execute`, and after each successful top-level `set`
the reactive cascade of `execute` (lines 160–183) runs: triggers, their
actions, one further level of chained triggers, and those chained actions —
nothing deeper. -/

structure RInterpSt where
  store : Value
  reactives : List ReactiveEngine.ReactData
  output : List Line

namespace ReactiveInterpreter

/-- `ReactiveInterpreter._execute_set_statement` (lines 210–216): evaluate,
write, no exception handling — any store error escapes. -/
def execute_set_statement (st : RInterpSt) (path : List PathPart) (value : Expr) :
    RInterpSt × Option StoreErr :=
  let p := evaluate_path st.store path
  let v := evaluate_value st.store value
  let st1 : RInterpSt := { st with output := st.output ++ p.2 ++ v.2 }
  let r := StateManager.set st1.store p.1 v.1
  match r.2 with
  | none => ({ st1 with store := r.1, output := st1.output ++ [Line.setOk p.1 v.1] }, none)
  | some e => ({ st1 with store := r.1 }, some e)

/-- Run one of the interpreter's statement methods whose body is identical
to the plain `Interpreter` version on the reactive interpreter's state. -/
def liftBase (st : RInterpSt) (f : InterpSt → InterpSt × Option StoreErr) :
    RInterpSt × Option StoreErr :=
  let r := f { store := st.store, output := st.output }
  ({ st with store := r.1.store, output := r.1.output }, r.2)

/-- `ReactiveInterpreter._execute_statement` (lines 190–199). -/
def execute_statement (st : RInterpSt) : Stmt → RInterpSt × Option StoreErr
  | .stateDecl pairs => liftBase st (Interpreter.execute_state_declaration · pairs)
  | .setStmt p v => execute_set_statement st p v
  | .printStmt e => liftBase st (Interpreter.execute_print_statement · e)
  | s => ({ st with output := st.output ++ [Line.warnUnknownStmt s.typeName] }, none)

/-- The innermost loop of `execute` (lines 182–183): run the chained
triggers' actions; their own consequences are never checked. -/
def run_chained (st : RInterpSt) :
    List ReactiveEngine.Trigger → RInterpSt × Option StoreErr
  | [] => (st, none)
  | t :: ts =>
    match execute_statement st t.action with
    | (st2, some e) => (st2, some e)
    | (st2, none) => run_chained st2 ts

/-- The trigger loop of `execute` (lines 170–183): run each triggered
action; if it was a `set`, check for chained triggers once and run their
actions through `run_chained`. -/
def run_triggers (st : RInterpSt) :
    List ReactiveEngine.Trigger → RInterpSt × Option StoreErr
  | [] => (st, none)
  | t :: ts =>
    match execute_statement st t.action with
    | (st2, some e) => (st2, some e)
    | (st2, none) =>
      match t.action with
      | .setStmt apath _ =>
        let p := evaluate_path st2.store apath
        let st3 : RInterpSt := { st2 with output := st2.output ++ p.2 }
        match ReactiveEngine.check_reactive_statements st3.store st3.reactives p.1 with
        | .error e => (st3, some e)
        | .ok [] => run_triggers st3 ts
        | .ok chained =>
          let st4 : RInterpSt := { st3 with output :=
            st3.output ++ ReactiveEngine.execute_reactive_actions chained }
          match run_chained st4 chained with
          | (st5, some e) => (st5, some e)
          | (st5, none) => run_triggers st5 ts
      | _ => run_triggers st2 ts

/-- The second pass of `execute` (lines 154–183): execute each non-react
statement; after a `set`, run the cascade.  An escaped exception appends
the generic error line and abandons the rest of the program. -/
def run_statements (st : RInterpSt) : List Stmt → RInterpSt
  | [] => st
  | (.reactStmt _ _ _) :: rest => run_statements st rest
  | s :: rest =>
    match execute_statement st s with
    | (st2, some e) => { st2 with output := st2.output ++ [Line.errorLine e] }
    | (st2, none) =>
      match s with
      | .setStmt path _ =>
        let p := evaluate_path st2.store path
        let st3 : RInterpSt := { st2 with output := st2.output ++ p.2 }
        match ReactiveEngine.check_reactive_statements st3.store st3.reactives p.1 with
        | .error e => { st3 with output := st3.output ++ [Line.errorLine e] }
        | .ok [] => run_statements st3 rest
        | .ok triggered =>
          let st4 : RInterpSt := { st3 with output :=
            st3.output ++ ReactiveEngine.execute_reactive_actions triggered }
          match run_triggers st4 triggered with
          | (st5, some e) => { st5 with output := st5.output ++ [Line.errorLine e] }
          | (st5, none) => run_statements st5 rest
      | _ => run_statements st2 rest

/-- The first pass of `execute` (lines 147–151): register every
`ReactStatement` and record one line per registration. -/
def register_pass (st : RInterpSt) : List Stmt → RInterpSt
  | [] => st
  | .reactStmt target conds acts :: rest =>
    register_pass { st with
      reactives := st.reactives ++ [⟨target, conds, acts⟩],
      output := st.output ++ [Line.registered target] } rest
  | _ :: rest => register_pass st rest

/-- `ReactiveInterpreter.execute` (lines 142–188) on a fresh interpreter. -/
def execute (statements : List Stmt) : RInterpSt :=
  run_statements
    (register_pass { store := .obj [], reactives := [], output := [] } statements)
    statements

end ReactiveInterpreter

/-! ## Tokens and Parser (src/parser/__init__.py, whatalang/lexer.py)

The parser works over a token list with a cursor, as the source does.
Recursive-descent loops are given explicit fuel (a bound on the number of
recursive calls); every loop in the source consumes at least one token per
step, so the generous bound chosen by `Parser.parse` is never reached on
any input. -/

inductive TokenType where
  | STATE | SET | PRINT | REACT | TO | WHEN | DEFAULT
  | STRING | NUMBER | BOOLEAN | NULL
  | IDENTIFIER
  | EQUALS | PLUS | MINUS | MULTIPLY | DIVIDE
  | EQUAL_EQUAL | NOT_EQUAL | GREATER | LESS | GREATER_EQUAL | LESS_EQUAL
  | LEFT_BRACE | RIGHT_BRACE | LEFT_BRACKET | RIGHT_BRACKET
  | COLON | COMMA | LEFT_PAREN | RIGHT_PAREN | DOT
  | EOF | WHITESPACE
  deriving Repr, DecidableEq

structure Token where
  type : TokenType
  value : String
  line : Nat
  column : Nat
  deriving Repr

/-- The `ValueError` of `Parser._consume` carries the expected token type and
the current token's position; `outOfFuel` is the artificial fuel bound and
is unreachable for the fuel `Parser.parse` supplies. -/
inductive PErr where
  | expected (t : TokenType) (line : Nat) (column : Nat) : PErr
  | outOfFuel : PErr
  deriving Repr, DecidableEq

/-- Python `token.value.strip('"\x27')`: remove any leading and trailing
double- or single-quote characters. -/
def stripQuotes (s : String) : String :=
  ⟨((s.data.dropWhile fun c => c.toNat = 34 ∨ c.toNat = 39).reverse.dropWhile
      fun c => c.toNat = 34 ∨ c.toNat = 39).reverse⟩

/-- Exactly one dot: the characters before and after it. -/
def splitOnDot : List Char → Option (List Char × List Char)
  | [] => none
  | c :: rest =>
    if c = '.' then
      if rest.contains '.' then none else some ([], rest)
    else (splitOnDot rest).map fun pr => (c :: pr.1, pr.2)

/-- Python `float(s)` for the `digits.digits` shape the lexer produces
(other strings Python's `float` accepts never reach this code, because the
lexer's NUMBER pattern cannot produce them). -/
def parseDecimal (s : String) : Option ℚ :=
  match splitOnDot s.data with
  | some (a, b) =>
    if pyIsDigit ⟨a⟩ && pyIsDigit ⟨b⟩ then
      some ((pyToNat ⟨a⟩ : ℚ) + (pyToNat ⟨b⟩ : ℚ) / ((10 : ℚ) ^ b.length))
    else none
  | none => none

/-- The NUMBER branch of `_parse_value` (lines 210–218): a value with a dot
becomes a float literal, otherwise an integer; a `ValueError` from the
conversion falls back to a string literal tagged `number`. -/
def parse_number_lit (s : String) : Expr :=
  if s.data.contains '.' then
    match parseDecimal s with
    | some q => .lit (.float q) "float"
    | none => .lit (.str s) "number"
  else if pyIsDigit s then .lit (.int (pyToNat s)) "integer"
  else .lit (.str s) "number"

namespace Parser

structure PState where
  tokens : List Token
  current : Nat
  deriving Repr

def dummyToken : Token := { type := .EOF, value := "", line := 0, column := 0 }

/-- `Parser._peek` (the token list always ends with EOF, so the default is
unreachable; Python would raise `IndexError` on an empty list). -/
def peek (p : PState) : Token := p.tokens.getD p.current dummyToken

/-- `Parser._previous`; with the cursor at zero, Python's `tokens[-1]` wraps
to the last token. -/
def previous (p : PState) : Token :=
  if p.current = 0 then p.tokens.getLast?.getD dummyToken
  else p.tokens.getD (p.current - 1) dummyToken

/-- `Parser._is_at_end`. -/
def is_at_end (p : PState) : Bool := (peek p).type = TokenType.EOF

/-- `Parser._check`: false at end of input, even for EOF itself. -/
def check (p : PState) (t : TokenType) : Bool :=
  if is_at_end p then false else (peek p).type = t

/-- `Parser._advance`: move past the current token (except at end) and
return the token just consumed. -/
def advance (p : PState) : Token × PState :=
  let p2 := if is_at_end p then p else { p with current := p.current + 1 }
  (previous p2, p2)

/-- `Parser._match`. -/
def matchTok (p : PState) (t : TokenType) : Bool × PState :=
  if check p t then (true, (advance p).2) else (false, p)

/-- `Parser._consume` (lines 345–350): take the expected token or raise a
`ValueError` carrying the current token's position — whether or not the
stream is at end of input. -/
def consume (t : TokenType) (p : PState) : Except PErr (Token × PState) :=
  if check p t then .ok (advance p)
  else .error (.expected t (peek p).line (peek p).column)

mutual

/-- `Parser._parse_value` (lines 201–231): dispatch on the current token;
an unrecognized token is consumed and `None` is reported to the caller. -/
def parse_value (fuel : Nat) (p : PState) : Except PErr (Option Expr × PState) :=
  match fuel with
  | 0 => .error .outOfFuel
  | fuel + 1 =>
    if check p .LEFT_BRACE then
      match parse_object fuel p with
      | .ok (e, p2) => .ok (some e, p2)
      | .error e => .error e
    else if check p .LEFT_BRACKET then
      match parse_array fuel p with
      | .ok (e, p2) => .ok (some e, p2)
      | .error e => .error e
    else if check p .STRING then
      let a := advance p
      .ok (some (.lit (.str (stripQuotes a.1.value)) "string"), a.2)
    else if check p .NUMBER then
      let a := advance p
      .ok (some (parse_number_lit a.1.value), a.2)
    else if check p .BOOLEAN then
      let a := advance p
      .ok (some (.lit (.bool (a.1.value = "true")) "boolean"), a.2)
    else if check p .NULL then
      let a := advance p
      .ok (some (.lit .null "null"), a.2)
    else if check p .IDENTIFIER then
      let a := advance p
      .ok (some (.ident a.1.value), a.2)
    else
      .ok (none, (advance p).2)

/-- The key-value collection loop shared verbatim by
`_parse_state_declaration` (lines 170–174) and `_parse_object`
(lines 238–242): identifiers start pairs, anything else is skipped, until a
closing brace or end of input. -/
def parse_pairs (fuel : Nat) (p : PState) (acc : List (String × Expr)) :
    Except PErr (List (String × Expr) × PState) :=
  match fuel with
  | 0 => .error .outOfFuel
  | fuel + 1 =>
    if !check p .RIGHT_BRACE && !is_at_end p then
      if check p .IDENTIFIER then
        match parse_key_value_pair fuel p with
        | .ok (kv, p2) => parse_pairs fuel p2 (acc ++ [kv])
        | .error e => .error e
      else parse_pairs fuel (advance p).2 acc
    else .ok (acc, p)

/-- `Parser._parse_key_value_pair` (lines 185–199): `identifier : value`,
substituting an empty-string literal tagged `unknown` for a failed value,
then an optional trailing comma. -/
def parse_key_value_pair (fuel : Nat) (p : PState) :
    Except PErr ((String × Expr) × PState) :=
  match fuel with
  | 0 => .error .outOfFuel
  | fuel + 1 =>
    match consume .IDENTIFIER p with
    | .error e => .error e
    | .ok (keyTok, p1) =>
      match consume .COLON p1 with
      | .error e => .error e
      | .ok (_, p2) =>
        match parse_value fuel p2 with
        | .error e => .error e
        | .ok (ov, p3) =>
          let v := ov.getD (.lit (.str "") "unknown")
          .ok ((keyTok.value, v), (matchTok p3 .COMMA).2)

/-- `Parser._parse_object` (lines 233–245); its closing brace is required. -/
def parse_object (fuel : Nat) (p : PState) : Except PErr (Expr × PState) :=
  match fuel with
  | 0 => .error .outOfFuel
  | fuel + 1 =>
    match consume .LEFT_BRACE p with
    | .error e => .error e
    | .ok (_, p1) =>
      match parse_pairs fuel p1 [] with
      | .error e => .error e
      | .ok (pairs, p2) =>
        match consume .RIGHT_BRACE p2 with
        | .error e => .error e
        | .ok (_, p3) => .ok (.objLit pairs, p3)

/-- The element loop of `_parse_array` (lines 251–258): parse a value (a
`None` is stored as-is), continue on a comma, otherwise break. -/
def parse_array_elems (fuel : Nat) (p : PState) (acc : List Expr) :
    Except PErr (List Expr × PState) :=
  match fuel with
  | 0 => .error .outOfFuel
  | fuel + 1 =>
    if !check p .RIGHT_BRACKET && !is_at_end p then
      match parse_value fuel p with
      | .error e => .error e
      | .ok (ov, p2) =>
        let acc2 := acc ++ [ov.getD .missing]
        match matchTok p2 .COMMA with
        | (true, p3) => parse_array_elems fuel p3 acc2
        | (false, p3) => .ok (acc2, p3)
    else .ok (acc, p)

/-- `Parser._parse_array` (lines 247–261); its closing bracket is required. -/
def parse_array (fuel : Nat) (p : PState) : Except PErr (Expr × PState) :=
  match fuel with
  | 0 => .error .outOfFuel
  | fuel + 1 =>
    match consume .LEFT_BRACKET p with
    | .error e => .error e
    | .ok (_, p1) =>
      match parse_array_elems fuel p1 [] with
      | .error e => .error e
      | .ok (elems, p2) =>
        match consume .RIGHT_BRACKET p2 with
        | .error e => .error e
        | .ok (_, p3) => .ok (.arrLit elems, p3)

/-- `Parser._parse_expression` (lines 299–311): an identifier (the `state`
keyword is allowed as one), else a value, with a failed value replaced by
the placeholder identifier `unknown`. -/
def parse_expression (fuel : Nat) (p : PState) : Except PErr (Expr × PState) :=
  match fuel with
  | 0 => .error .outOfFuel
  | fuel + 1 =>
    if check p .IDENTIFIER then
      let a := advance p
      .ok (.ident a.1.value, a.2)
    else if check p .STATE then
      let a := advance p
      .ok (.ident a.1.value, a.2)
    else
      match parse_value fuel p with
      | .error e => .error e
      | .ok (none, p2) => .ok (.ident "unknown", p2)
      | .ok (some v, p2) => .ok (v, p2)

/-- The continuation loop of `_parse_path` (lines 282–295): `.identifier`
or `.digits` segments, or a bracketed expression index (whose closing
bracket is required); a dot followed by anything else is consumed and the
loop breaks. -/
def parse_path_loop (fuel : Nat) (p : PState) (acc : List PathPart) :
    Except PErr (List PathPart × PState) :=
  match fuel with
  | 0 => .error .outOfFuel
  | fuel + 1 =>
    if is_at_end p then .ok (acc, p)
    else
      match matchTok p .DOT with
      | (true, p2) =>
        if check p2 .IDENTIFIER then
          let a := advance p2
          parse_path_loop fuel a.2 (acc ++ [.seg a.1.value])
        else if check p2 .NUMBER then
          let a := advance p2
          parse_path_loop fuel a.2 (acc ++ [.seg a.1.value])
        else .ok (acc, p2)
      | (false, _) =>
        match matchTok p .LEFT_BRACKET with
        | (true, p2) =>
          match parse_expression fuel p2 with
          | .error e => .error e
          | .ok (e, p3) =>
            match consume .RIGHT_BRACKET p3 with
            | .error err => .error err
            | .ok (_, p4) => parse_path_loop fuel p4 (acc ++ [.idx e])
        | (false, _) => .ok (acc, p)

end

/-- `Parser._parse_path` (lines 275–297): empty unless it starts with an
identifier. -/
def parse_path (fuel : Nat) (p : PState) : Except PErr (List PathPart × PState) :=
  if check p .IDENTIFIER then
    let a := advance p
    parse_path_loop fuel a.2 [.seg a.1.value]
  else .ok ([], p)

/-- `Parser._parse_state_declaration` (lines 165–183): the opening brace is
required; the closing brace is consumed inside `try/except` and its absence
is tolerated. -/
def parse_state_declaration (fuel : Nat) (p : PState) : Except PErr (Stmt × PState) :=
  match consume .LEFT_BRACE p with
  | .error e => .error e
  | .ok (_, p1) =>
    match parse_pairs fuel p1 [] with
    | .error e => .error e
    | .ok (pairs, p2) =>
      match consume .RIGHT_BRACE p2 with
      | .ok (_, p3) => .ok (.stateDecl pairs, p3)
      | .error _ => .ok (.stateDecl pairs, p2)

/-- `Parser._parse_set_statement` (lines 263–268): `path = expression`; the
equals sign is required. -/
def parse_set_statement (fuel : Nat) (p : PState) : Except PErr (Stmt × PState) :=
  match parse_path fuel p with
  | .error e => .error e
  | .ok (path, p2) =>
    match consume .EQUALS p2 with
    | .error e => .error e
    | .ok (_, p3) =>
      match parse_expression fuel p3 with
      | .error e => .error e
      | .ok (v, p4) => .ok (.setStmt path v, p4)

/-- `Parser._parse_print_statement` (lines 270–273). -/
def parse_print_statement (fuel : Nat) (p : PState) : Except PErr (Stmt × PState) :=
  match parse_expression fuel p with
  | .error e => .error e
  | .ok (e, p2) => .ok (.printStmt e, p2)

/-- `Parser._parse_statement` (lines 152–163): dispatch on the leading
token — `state`, `set` or `print` open their statements; ANY other leading
token (including `react`) is consumed and discarded with no statement. -/
def parse_statement (fuel : Nat) (p : PState) : Except PErr (Option Stmt × PState) :=
  match matchTok p .STATE with
  | (true, p2) =>
    match parse_state_declaration fuel p2 with
    | .ok (s, p3) => .ok (some s, p3)
    | .error e => .error e
  | (false, _) =>
    match matchTok p .SET with
    | (true, p2) =>
      match parse_set_statement fuel p2 with
      | .ok (s, p3) => .ok (some s, p3)
      | .error e => .error e
    | (false, _) =>
      match matchTok p .PRINT with
      | (true, p2) =>
        match parse_print_statement fuel p2 with
        | .ok (s, p3) => .ok (some s, p3)
        | .error e => .error e
      | (false, _) => .ok (none, (advance p).2)

/-- The statement loop of `Parser.parse` (lines 141–150). -/
def parse_loop (fuel : Nat) (p : PState) (acc : List Stmt) :
    Except PErr (List Stmt × PState) :=
  match fuel with
  | 0 => .error .outOfFuel
  | fuel + 1 =>
    if is_at_end p then .ok (acc, p)
    else
      match parse_statement fuel p with
      | .error e => .error e
      | .ok (some s, p2) => parse_loop fuel p2 (acc ++ [s])
      | .ok (none, p2) => parse_loop fuel p2 acc

/-- `Parser.parse`: the returned `Program` is its statement list.  The fuel
bounds the total number of parsing calls; every loop step and descent
consumes at least one token first, so a quadratic budget in the token count
is never exhausted. -/
def parse (tokens : List Token) : Except PErr (List Stmt) :=
  match parse_loop ((tokens.length + 2) * (tokens.length + 2) + 16)
      { tokens := tokens, current := 0 } [] with
  | .ok (stmts, _) => .ok stmts
  | .error e => .error e

end Parser

/-! ## Association-list lemmas -/

theorem objFind_objInsert_self (fs : List (String × Value)) (k : String) (v : Value) :
    objFind (objInsert fs k v) k = some v := by
  induction fs with
  | nil => simp [objInsert, objFind]
  | cons kv rest ih =>
    obtain ⟨k0, w⟩ := kv
    by_cases h : k0 = k
    · simp [objInsert, objFind, h]
    · simp [objInsert, objFind, h, ih]

theorem objInsert_of_objFind_none (fs : List (String × Value)) (k : String) (v : Value)
    (h : objFind fs k = none) : objInsert fs k v = fs ++ [(k, v)] := by
  induction fs with
  | nil => simp [objInsert]
  | cons kv rest ih =>
    obtain ⟨k0, w⟩ := kv
    by_cases hk : k0 = k
    · simp [objFind, hk] at h
    · simp [objFind, hk] at h
      simp [objInsert, hk, ih h]

theorem objInsert_of_objFind_same (fs : List (String × Value)) (k : String) (w : Value)
    (h : objFind fs k = some w) : objInsert fs k w = fs := by
  induction fs with
  | nil => simp [objFind] at h
  | cons kv rest ih =>
    obtain ⟨k0, w0⟩ := kv
    by_cases hk : k0 = k
    · simp [objFind, hk] at h
      simp [objInsert, hk, h]
    · simp [objFind, hk] at h
      simp [objInsert, hk, ih h]

theorem objFind_eq_none_of_not_mem (fs : List (String × Value)) (k : String)
    (h : k ∉ fs.map Prod.fst) : objFind fs k = none := by
  induction fs with
  | nil => simp [objFind]
  | cons kv rest ih =>
    obtain ⟨k0, w⟩ := kv
    simp only [List.map_cons, List.mem_cons, not_or] at h
    have hk : k0 ≠ k := fun hq => h.1 hq.symm
    simp [objFind, hk, ih h.2]

theorem objFind_objErase_self (fs : List (String × Value)) (k : String)
    (h : (fs.map Prod.fst).Nodup) : objFind (objErase fs k) k = none := by
  induction fs with
  | nil => simp [objErase, objFind]
  | cons kv rest ih =>
    obtain ⟨k0, w⟩ := kv
    simp only [List.map_cons, List.nodup_cons] at h
    by_cases hk : k0 = k
    · subst hk
      simpa [objErase] using objFind_eq_none_of_not_mem rest k0 h.1
    · simp [objErase, objFind, hk, ih h.2]

/-! ## Store round-trip lemmas -/

theorem setGo_get (path : List String) :
    ∀ (cur : Value) (isRoot : Bool) (v cur' : Value),
      StateManager.setGo cur isRoot path v = (cur', none) →
      StateManager.get cur' path = .ok v := by
  induction path with
  | nil =>
    intro cur isRoot v cur' h
    simp [StateManager.setGo] at h
  | cons part rest ih =>
    intro cur isRoot v cur' h
    cases rest with
    | nil =>
      cases cur with
      | obj fs =>
        simp [StateManager.setGo, StateManager.setFinal] at h
        subst h
        simp [StateManager.get, objFind_objInsert_self]
      | arr xs =>
        simp only [StateManager.setGo, StateManager.setFinal] at h
        split at h
        · split at h
          · simp only [Prod.mk.injEq] at h
            obtain ⟨h1, -⟩ := h
            subst h1
            rename_i hdig hlt
            simp [StateManager.get, hdig, hlt, List.length_set, List.get_eq_getElem,
              List.getElem_set_self]
          · simp at h
        · simp at h
      | null => simp [StateManager.setGo, StateManager.setFinal] at h
      | bool b => simp [StateManager.setGo, StateManager.setFinal] at h
      | int n => simp [StateManager.setGo, StateManager.setFinal] at h
      | float q => simp [StateManager.setGo, StateManager.setFinal] at h
      | str s => simp [StateManager.setGo, StateManager.setFinal] at h
    | cons r2 rrest =>
      cases cur with
      | obj fs =>
        simp only [StateManager.setGo] at h
        split at h
        · rename_i child heq
          simp only [Prod.mk.injEq] at h
          obtain ⟨h1, h2⟩ := h
          subst h1
          have hrec : StateManager.setGo child false (r2 :: rrest) v =
              ((StateManager.setGo child false (r2 :: rrest) v).1, none) := by
            rw [← h2]
          simp [StateManager.get, objFind_objInsert_self]
          exact ih _ false v _ hrec
        · split at h
          · simp only [Prod.mk.injEq] at h
            obtain ⟨h1, h2⟩ := h
            subst h1
            have hrec : StateManager.setGo (.obj []) false (r2 :: rrest) v =
                ((StateManager.setGo (.obj []) false (r2 :: rrest) v).1, none) := by
              rw [← h2]
            simp [StateManager.get, objFind_objInsert_self]
            exact ih _ false v _ hrec
          · simp at h
      | arr xs =>
        simp only [StateManager.setGo] at h
        split at h
        · simp only [Prod.mk.injEq] at h
          obtain ⟨h1, h2⟩ := h
          subst h1
          rename_i hcond
          have hrec : StateManager.setGo (xs.get ⟨pyToNat part, hcond.2⟩) false
              (r2 :: rrest) v =
              ((StateManager.setGo (xs.get ⟨pyToNat part, hcond.2⟩) false
                (r2 :: rrest) v).1, none) := by
            rw [← h2]
          simp [StateManager.get, hcond.1, hcond.2, List.length_set, List.get_eq_getElem,
            List.getElem_set_self]
          exact ih _ false v _ hrec
        · split at h <;> simp at h
      | null => simp [StateManager.setGo] at h
      | bool b => simp [StateManager.setGo] at h
      | int n => simp [StateManager.setGo] at h
      | float q => simp [StateManager.setGo] at h
      | str s => simp [StateManager.setGo] at h

theorem delete_get_objKey (q : List String) :
    ∀ (root : Value) (k : String) (m : List (String × Value)) (root' : Value),
      StateManager.get root q = .ok (.obj m) → (m.map Prod.fst).Nodup →
      StateManager.delete root (q ++ [k]) = .ok root' →
      StateManager.get root' (q ++ [k]) = .error .pathNotFound := by
  induction q with
  | nil =>
    intro root k m root' hget hnd hdel
    simp only [StateManager.get] at hget
    cases root <;> simp at hget
    case obj fs =>
      subst hget
      simp only [List.nil_append] at hdel ⊢
      simp only [StateManager.delete, StateManager.deleteFinal] at hdel
      split at hdel
      · simp only [Except.ok.injEq] at hdel
        subst hdel
        simp [StateManager.get, objFind_objErase_self fs k hnd]
      · simp at hdel
  | cons s q ih =>
    intro root k m root' hget hnd hdel
    obtain ⟨r0, rr, hqk⟩ : ∃ a l, q ++ [k] = a :: l := by
      cases q <;> exact ⟨_, _, rfl⟩
    cases root with
    | obj fs =>
      simp only [StateManager.get] at hget
      split at hget
      · rename_i child heq
        simp only [List.cons_append, hqk] at hdel
        simp only [StateManager.delete, heq] at hdel
        split at hdel
        · rename_i child' heq2
          simp only [Except.ok.injEq] at hdel
          subst hdel
          have hdc : StateManager.delete child (q ++ [k]) = .ok child' := by
            rw [hqk]; exact heq2
          have := ih child k m child' hget hnd hdc
          simp only [List.cons_append]
          simp [StateManager.get, objFind_objInsert_self]
          exact this
        · simp at hdel
      · simp at hget
    | arr xs =>
      simp only [StateManager.get] at hget
      split at hget
      · rename_i hcond
        simp only [List.cons_append, hqk] at hdel
        simp only [StateManager.delete] at hdel
        rw [dif_pos hcond] at hdel
        split at hdel
        · rename_i child' heq2
          simp only [Except.ok.injEq] at hdel
          subst hdel
          have hdc : StateManager.delete (xs.get ⟨pyToNat s, hcond.2⟩) (q ++ [k]) =
              .ok child' := by
            rw [hqk]; exact heq2
          have := ih _ k m child' hget hnd hdc
          simp only [List.cons_append]
          have hlen : pyToNat s < (xs.set (pyToNat s) child').length := by
            simpa [List.length_set] using hcond.2
          simp [StateManager.get, hcond.1, hcond.2, hlen, List.get_eq_getElem,
            List.getElem_set_self]
          exact this
        · simp at hdel
      · split at hget <;> simp at hget
    | null => simp [StateManager.get] at hget
    | bool b => simp [StateManager.get] at hget
    | int n => simp [StateManager.get] at hget
    | float f => simp [StateManager.get] at hget
    | str t => simp [StateManager.get] at hget

/-! ## Claim theorems -/

/-- C1: `ReactiveEngine._paths_match R P` is true exactly when the rule
target `R` equals the changed path `P` or `P` is a strict prefix of `R`; in
particular a rule on `["user","age"]` is affected by a mutation at
`["user"]` while a rule on `["user"]` is not affected by a mutation at
`["user","age"]`. -/
theorem paths_match_spec :
    (∀ R P : List String,
      ReactiveEngine.paths_match R P = true ↔ R = P ∨ (P <+: R ∧ P ≠ R)) ∧
    ReactiveEngine.paths_match ["user", "age"] ["user"] = true ∧
    ReactiveEngine.paths_match ["user"] ["user", "age"] = false := by
  refine ⟨fun R P => ?_, by decide, by decide⟩
  unfold ReactiveEngine.paths_match
  by_cases hRP : R = P
  · simp [hRP]
  · rw [if_neg hRP]
    by_cases hlen : P.length < R.length
    · rw [if_pos hlen]
      simp only [decide_eq_true_eq]
      constructor
      · intro h
        exact Or.inr ⟨List.prefix_iff_eq_take.mpr h, fun hq => hRP hq.symm⟩
      · rintro (h | ⟨hpre, hne⟩)
        · exact absurd h hRP
        · exact List.prefix_iff_eq_take.mp hpre
    · rw [if_neg hlen]
      constructor
      · intro h
        exact absurd h (by simp)
      · rintro (h | ⟨hpre, hne⟩)
        · exact absurd h hRP
        · rcases lt_or_eq_of_le hpre.length_le with hl | hl
          · exact absurd hl hlen
          · exact absurd (hpre.eq_of_length hl) hne

/-- C9 counterexample: with state `{a: 5}`, `get ["a","b"]` walks into the
scalar `5` and fails with `PathNotFound` (Python `KeyError`), not with the
`TypeMismatch` the claim requires for a non-container intermediate. -/
theorem get_scalar_pathNotFound_cex :
    StateManager.get (.obj [("a", .int 5)]) ["a", "b"] = .error .pathNotFound ∧
    StoreErr.pathNotFound ≠ StoreErr.typeMismatch := ⟨rfl, by decide⟩

/-- C9 amended: `get` fails with `PathNotFound` for a missing object key,
for any non-container value reached mid-path, and for a non-digit segment
on an array; `IndexOutOfBounds` for a digit segment outside `[0, length)`;
it never fails with `TypeMismatch`. -/
theorem get_error_kinds :
    (∀ (v : Value) (p : List String),
      StateManager.get v p ≠ .error .typeMismatch) ∧
    (∀ (fs : List (String × Value)) (s : String) (rest : List String),
      objFind fs s = none →
      StateManager.get (.obj fs) (s :: rest) = .error .pathNotFound) ∧
    (∀ (v : Value) (s : String) (rest : List String), v.isContainer = false →
      StateManager.get v (s :: rest) = .error .pathNotFound) ∧
    (∀ (xs : List Value) (s : String) (rest : List String), pyIsDigit s = false →
      StateManager.get (.arr xs) (s :: rest) = .error .pathNotFound) ∧
    (∀ (xs : List Value) (s : String) (rest : List String), pyIsDigit s = true →
      xs.length ≤ pyToNat s →
      StateManager.get (.arr xs) (s :: rest) = .error .indexOOB) := by
  refine ⟨?_, ?_, ?_, ?_, ?_⟩
  · intro v p
    induction p generalizing v with
    | nil => simp [StateManager.get]
    | cons s rest ih =>
      cases v with
      | obj fs =>
        cases h : objFind fs s with
        | some c => simpa [StateManager.get, h] using ih c
        | none => simp [StateManager.get, h]
      | arr xs =>
        simp only [StateManager.get]
        split
        · exact ih _
        · split <;> simp
      | null => simp [StateManager.get]
      | bool b => simp [StateManager.get]
      | int n => simp [StateManager.get]
      | float q => simp [StateManager.get]
      | str t => simp [StateManager.get]
  · intro fs s rest h
    simp [StateManager.get, h]
  · intro v s rest h
    cases v <;> simp_all [Value.isContainer] <;> simp [StateManager.get]
  · intro xs s rest h
    simp [StateManager.get, h]
  · intro xs s rest h1 h2
    have hno : ¬(pyIsDigit s = true ∧ pyToNat s < xs.length) := by
      rintro ⟨-, hlt⟩
      omega
    simp [StateManager.get, hno, h1, Nat.not_lt.mpr h2]

/-- C7: `set` auto-creates a missing key only at the store's root (top-level
keys may be created, even one level of nesting through the fresh `{}`);
a missing intermediate key below the root is `PathNotFound`; the terminal
segment is created or overwritten on an object; on an array the terminal
segment only overwrites an in-bounds slot, an index past the end is
`IndexOutOfBounds` and the array never grows. -/
theorem set_autocreation_spec :
    (∀ (fs : List (String × Value)) (k : String) (v : Value),
      objFind fs k = none →
      StateManager.set (.obj fs) [k] v = (.obj (fs ++ [(k, v)]), none)) ∧
    (∀ (fs : List (String × Value)) (k k2 : String) (v : Value),
      objFind fs k = none →
      StateManager.set (.obj fs) [k, k2] v =
        (.obj (fs ++ [(k, .obj [(k2, v)])]), none)) ∧
    (∀ (gs : List (String × Value)) (k : String) (rest : List String) (v : Value),
      objFind gs k = none → rest ≠ [] →
      StateManager.setGo (.obj gs) false (k :: rest) v =
        (.obj gs, some .pathNotFound)) ∧
    (∀ (fs : List (String × Value)) (k : String) (v : Value),
      StateManager.set (.obj fs) [k] v = (.obj (objInsert fs k v), none)) ∧
    (∀ (fs : List (String × Value)) (a s : String) (xs : List Value) (v : Value),
      objFind fs a = some (.arr xs) → pyIsDigit s = true →
      (pyToNat s < xs.length →
        StateManager.set (.obj fs) [a, s] v =
          (.obj (objInsert fs a (.arr (xs.set (pyToNat s) v))), none) ∧
        (xs.set (pyToNat s) v).length = xs.length) ∧
      (xs.length ≤ pyToNat s →
        StateManager.set (.obj fs) [a, s] v = (.obj fs, some .indexOOB))) := by
  refine ⟨?_, ?_, ?_, ?_, ?_⟩
  · intro fs k v h
    simp [StateManager.set, StateManager.setGo, StateManager.setFinal,
      objInsert_of_objFind_none fs k v h]
  · intro fs k k2 v h
    simp [StateManager.set, StateManager.setGo, StateManager.setFinal, h,
      objInsert, objInsert_of_objFind_none fs k _ h]
  · intro gs k rest v h hrest
    obtain ⟨r, rr, rfl⟩ := List.exists_cons_of_ne_nil hrest
    simp [StateManager.setGo, h]
  · intro fs k v
    simp [StateManager.set, StateManager.setGo, StateManager.setFinal]
  · intro fs a s xs v hfind hdig
    constructor
    · intro hlt
      refine ⟨?_, List.length_set xs (pyToNat s) v⟩
      simp [StateManager.set, StateManager.setGo, StateManager.setFinal,
        hfind, hdig, hlt]
    · intro hge
      have hno : ¬(pyToNat s < xs.length) := Nat.not_lt.mpr hge
      simp [StateManager.set, StateManager.setGo, StateManager.setFinal,
        hfind, hdig, hno, objInsert_of_objFind_same fs a _ hfind]

/-- C6 counterexample: with state `{arr: [1, 2]}`, `delete ["arr","0"]`
succeeds, and the immediately following `get ["arr","0"]` returns the
shifted element `2` instead of failing with `PathNotFound`. -/
theorem delete_then_get_array_cex :
    StateManager.delete (.obj [("arr", .arr [.int 1, .int 2])]) ["arr", "0"] =
      .ok (.obj [("arr", .arr [.int 2])]) ∧
    StateManager.get (.obj [("arr", .arr [.int 2])]) ["arr", "0"] = .ok (.int 2) :=
  ⟨rfl, rfl⟩

/-- C6 amended: a successful `set` is read back by `get` on the same path;
`delete` of an **object key** makes the following `get` fail with
`PathNotFound` (for the duplicate-free dicts the store builds); deleting an
array element shifts later indices down, so `get` on the deleted path may
return the next element (see the counterexample) — the delete/get half of
the round trip holds only for object keys. -/
theorem set_get_roundtrip :
    (∀ (root : Value) (path : List String) (v root' : Value),
      StateManager.set root path v = (root', none) →
      StateManager.get root' path = .ok v) ∧
    (∀ (root : Value) (q : List String) (k : String)
        (m : List (String × Value)) (root' : Value),
      StateManager.get root q = .ok (.obj m) → (m.map Prod.fst).Nodup →
      StateManager.delete root (q ++ [k]) = .ok root' →
      StateManager.get root' (q ++ [k]) = .error .pathNotFound) ∧
    StateManager.get ((StateManager.set (.obj []) ["x"] (.int 1)).1) ["x"] =
      .ok (.int 1) := by
  refine ⟨?_, ?_, rfl⟩
  · intro root path v root' h
    cases path with
    | nil => simp [StateManager.set] at h
    | cons p ps =>
      exact setGo_get (p :: ps) root true v root'
        (by simpa [StateManager.set] using h)
  · intro root q k m root' h1 h2 h3
    exact delete_get_objKey q root k m root' h1 h2 h3

/-- C8: `evaluate_condition` follows the native operator table — `==`/`!=`
are Python equality and its negation, the four order operators return
exactly the native comparison whenever Python would not raise, any
comparison Python raises on makes the condition false instead, and an
unrecognized operator falls back to `==`. -/
theorem evaluate_condition_operator_table :
    (∀ (store : Value) (c : CondExpr) (acts : List Stmt) (tv : Value),
      ReactiveEngine.evaluate_condition store (.mk "==" c acts) tv =
        pyEq tv (ReactiveEngine.evaluate_expression store c)) ∧
    (∀ (store : Value) (c : CondExpr) (acts : List Stmt) (tv : Value),
      ReactiveEngine.evaluate_condition store (.mk "!=" c acts) tv =
        !pyEq tv (ReactiveEngine.evaluate_expression store c)) ∧
    (∀ (store : Value) (c : CondExpr) (acts : List Stmt) (tv : Value) (b : Bool),
      pyGt tv (ReactiveEngine.evaluate_expression store c) = some b →
      ReactiveEngine.evaluate_condition store (.mk ">" c acts) tv = b) ∧
    (∀ (store : Value) (c : CondExpr) (acts : List Stmt) (tv : Value) (b : Bool),
      pyLt tv (ReactiveEngine.evaluate_expression store c) = some b →
      ReactiveEngine.evaluate_condition store (.mk "<" c acts) tv = b) ∧
    (∀ (store : Value) (c : CondExpr) (acts : List Stmt) (tv : Value) (b : Bool),
      pyGe tv (ReactiveEngine.evaluate_expression store c) = some b →
      ReactiveEngine.evaluate_condition store (.mk ">=" c acts) tv = b) ∧
    (∀ (store : Value) (c : CondExpr) (acts : List Stmt) (tv : Value) (b : Bool),
      pyLe tv (ReactiveEngine.evaluate_expression store c) = some b →
      ReactiveEngine.evaluate_condition store (.mk "<=" c acts) tv = b) ∧
    (∀ (store : Value) (c : CondExpr) (acts : List Stmt) (tv : Value),
      pyGt tv (ReactiveEngine.evaluate_expression store c) = none →
      ReactiveEngine.evaluate_condition store (.mk ">" c acts) tv = false) ∧
    (∀ (store : Value) (c : CondExpr) (acts : List Stmt) (tv : Value),
      pyLt tv (ReactiveEngine.evaluate_expression store c) = none →
      ReactiveEngine.evaluate_condition store (.mk "<" c acts) tv = false) ∧
    (∀ (store : Value) (c : CondExpr) (acts : List Stmt) (tv : Value),
      pyGe tv (ReactiveEngine.evaluate_expression store c) = none →
      ReactiveEngine.evaluate_condition store (.mk ">=" c acts) tv = false) ∧
    (∀ (store : Value) (c : CondExpr) (acts : List Stmt) (tv : Value),
      pyLe tv (ReactiveEngine.evaluate_expression store c) = none →
      ReactiveEngine.evaluate_condition store (.mk "<=" c acts) tv = false) ∧
    (∀ (op : String), op ≠ "==" → op ≠ "!=" → op ≠ ">" → op ≠ "<" →
      op ≠ ">=" → op ≠ "<=" →
      ∀ (store : Value) (c : CondExpr) (acts : List Stmt) (tv : Value),
      ReactiveEngine.evaluate_condition store (.mk op c acts) tv =
        pyEq tv (ReactiveEngine.evaluate_expression store c)) ∧
    ReactiveEngine.evaluate_condition (.obj [])
      (.mk ">" (.lit (.str "x")) []) (.int 1) = false := by
  refine ⟨fun store c acts tv => rfl, fun store c acts tv => rfl,
    ?_, ?_, ?_, ?_, ?_, ?_, ?_, ?_, ?_, rfl⟩
  · intro store c acts tv b h
    simp [ReactiveEngine.evaluate_condition, RCond.operator, RCond.value, h]
  · intro store c acts tv b h
    simp [ReactiveEngine.evaluate_condition, RCond.operator, RCond.value, h]
  · intro store c acts tv b h
    simp [ReactiveEngine.evaluate_condition, RCond.operator, RCond.value, h]
  · intro store c acts tv b h
    simp [ReactiveEngine.evaluate_condition, RCond.operator, RCond.value, h]
  · intro store c acts tv h
    simp [ReactiveEngine.evaluate_condition, RCond.operator, RCond.value, h]
  · intro store c acts tv h
    simp [ReactiveEngine.evaluate_condition, RCond.operator, RCond.value, h]
  · intro store c acts tv h
    simp [ReactiveEngine.evaluate_condition, RCond.operator, RCond.value, h]
  · intro store c acts tv h
    simp [ReactiveEngine.evaluate_condition, RCond.operator, RCond.value, h]
  · intro op h1 h2 h3 h4 h5 h6 store c acts tv
    simp [ReactiveEngine.evaluate_condition, RCond.operator, RCond.value,
      h1, h2, h3, h4, h5, h6]

/-! ## Concrete programs for the cascade and error-handling claims -/

/-- Rule A: `react to counter when > 10 { set status = "high" }`. -/
def ruleA : Stmt :=
  .reactStmt ["counter"]
    [RCond.mk ">" (.lit (.int 10))
      [.setStmt [.seg "status"] (.lit (.str "high") "string")]] []

/-- Rule B: `react to status when == "high" { set level = "expert" }`. -/
def ruleB : Stmt :=
  .reactStmt ["status"]
    [RCond.mk "==" (.lit (.str "high"))
      [.setStmt [.seg "level"] (.lit (.str "expert") "string")]] []

/-- Rules A and B, `state { counter: 0 }`, then `set counter = 15`. -/
def cascadeProgram : List Stmt :=
  [ruleA, ruleB, .stateDecl [("counter", .lit (.int 0) "integer")],
   .setStmt [.seg "counter"] (.lit (.int 15) "integer")]

/-- `set a.b.c = 1` on an empty store — the write fails with `PathNotFound`
below the auto-created top-level `a` — followed by a print statement. -/
def failSetProgram : List Stmt :=
  [.setStmt [.seg "a", .seg "b", .seg "c"] (.lit (.int 1) "integer"),
   .printStmt (.lit (.str "hello") "string")]

/-- A rule cycle: a rule on `a` sets `b` and a rule on `b` sets `a`, both
with always-satisfiable conditions, driven by `set a = "start"`. -/
def cycleProgram : List Stmt :=
  [.reactStmt ["a"]
    [RCond.mk "!=" (.lit (.str "zzz"))
      [.setStmt [.seg "b"] (.lit (.str "x") "string")]] [],
   .reactStmt ["b"]
    [RCond.mk "!=" (.lit (.str "zzz"))
      [.setStmt [.seg "a"] (.lit (.str "y") "string")]] [],
   .setStmt [.seg "a"] (.lit (.str "start") "string")]

/-- A three-rule chain `a` → `b` → `c` → `d`, driven by `set a = 0`. -/
def chainProgram : List Stmt :=
  [.reactStmt ["a"]
    [RCond.mk "!=" (.lit .null) [.setStmt [.seg "b"] (.lit (.int 1) "integer")]] [],
   .reactStmt ["b"]
    [RCond.mk "!=" (.lit .null) [.setStmt [.seg "c"] (.lit (.int 2) "integer")]] [],
   .reactStmt ["c"]
    [RCond.mk "!=" (.lit .null) [.setStmt [.seg "d"] (.lit (.int 3) "integer")]] [],
   .setStmt [.seg "a"] (.lit (.int 0) "integer")]

set_option maxHeartbeats 1600000 in
/-- C3: one `execute` call on the two chained rules with `set counter = 15`
ends with `{counter: 15, status: "high", level: "expert"}` — the write
fires rule A and rule A's action fires rule B — and the output shows both
trigger/action pairs of the depth-2 cascade. -/
theorem cascade_two_rules_final_state :
    (ReactiveInterpreter.execute cascadeProgram).store =
      .obj [("counter", .int 15), ("status", .str "high"),
        ("level", .str "expert")] ∧
    (ReactiveInterpreter.execute cascadeProgram).output =
      [Line.registered ["counter"], Line.registered ["status"],
       Line.stateInit 1, Line.setOk ["counter"] (.int 15),
       Line.reactiveTrigger ["unknown"] ">" (.int 10),
       Line.executing "SetStatement", Line.setOk ["status"] (.str "high"),
       Line.reactiveTrigger ["unknown"] "==" (.str "high"),
       Line.executing "SetStatement",
       Line.setOk ["level"] (.str "expert")] := ⟨rfl, rfl⟩

/-- C4 counterexample: on `failSetProgram` the ReactiveInterpreter's failed
`set` is not downgraded to a warning — the program aborts with the single
generic error line, the following print statement never runs, and even the
plain Interpreter's caught failure is not a state no-op: the auto-created
top-level key `a` is left behind in both. -/
theorem failed_set_not_warning_noop_cex :
    (ReactiveInterpreter.execute failSetProgram).output =
      [Line.errorLine .pathNotFound] ∧
    (ReactiveInterpreter.execute failSetProgram).store = .obj [("a", .obj [])] ∧
    (Interpreter.execute failSetProgram).output =
      [Line.warnCouldNotSet ["a", "b", "c"] .pathNotFound,
       Line.printRaw (.str "hello")] ∧
    (Interpreter.execute failSetProgram).store = .obj [("a", .obj [])] :=
  ⟨rfl, rfl, rfl, rfl⟩

/-- C4 amended: in the plain `Interpreter` a store write failing with one of
the three store errors is caught, appends the warning line and lets
execution continue (though partial mutations made before the failure stay
in the store); in the `ReactiveInterpreter` the same failure escapes the
set statement and `run_statements` appends one generic error line and
abandons the remaining statements. -/
theorem set_error_handling :
    (∀ (st : InterpSt) (p : List PathPart) (v : Expr) (e : StoreErr),
      (Interpreter.execute_set_statement st p v).2 = some e → e = .emptyPath) ∧
    (∀ (st : InterpSt) (p : List PathPart) (v : Expr) (e : StoreErr),
      (StateManager.set st.store (evaluate_path st.store p).1
        (evaluate_value st.store v).1).2 = some e → e ≠ .emptyPath →
      Interpreter.execute_set_statement st p v =
        ({ store := (StateManager.set st.store (evaluate_path st.store p).1
              (evaluate_value st.store v).1).1,
           output := (st.output ++ (evaluate_path st.store p).2 ++
              (evaluate_value st.store v).2) ++
             [Line.warnCouldNotSet (evaluate_path st.store p).1 e] }, none)) ∧
    (∀ (st st2 : InterpSt) (s : Stmt) (rest : List Stmt),
      Interpreter.execute_statement st s = (st2, none) →
      Interpreter.run st (s :: rest) = Interpreter.run st2 rest) ∧
    (∀ (st : RInterpSt) (p : List PathPart) (v : Expr) (e : StoreErr),
      (StateManager.set st.store (evaluate_path st.store p).1
        (evaluate_value st.store v).1).2 = some e →
      (ReactiveInterpreter.execute_set_statement st p v).2 = some e) ∧
    (∀ (st st2 : RInterpSt) (p : List PathPart) (v : Expr) (e : StoreErr)
        (rest : List Stmt),
      ReactiveInterpreter.execute_statement st (.setStmt p v) = (st2, some e) →
      ReactiveInterpreter.run_statements st (.setStmt p v :: rest) =
        { st2 with output := st2.output ++ [Line.errorLine e] }) := by
  refine ⟨?_, ?_, ?_, ?_, ?_⟩
  · intro st p v e h
    simp only [Interpreter.execute_set_statement] at h
    cases hset : (StateManager.set st.store (evaluate_path st.store p).1
        (evaluate_value st.store v).1).2 with
    | none => rw [hset] at h; simp at h
    | some e2 =>
      rw [hset] at h
      cases e2 with
      | emptyPath => simpa using h.symm
      | pathNotFound => simp at h
      | indexOOB => simp at h
      | typeMismatch => simp at h
  · intro st p v e h hne
    cases e with
    | emptyPath => exact absurd rfl hne
    | pathNotFound => simp [Interpreter.execute_set_statement, h]
    | indexOOB => simp [Interpreter.execute_set_statement, h]
    | typeMismatch => simp [Interpreter.execute_set_statement, h]
  · intro st st2 s rest h
    simp [Interpreter.run, h]
  · intro st p v e h
    simp [ReactiveInterpreter.execute_set_statement, h]
  · intro st st2 p v e rest h
    simp [ReactiveInterpreter.run_statements, h]

/-- C10 counterexample: `execute` on the mutually-triggering rule cycle of
`cycleProgram` evaluates to a concrete final state — the embedded `execute`
is a total function, and on this cycle the hardcoded cascade runs rule A
once and rule B once and stops, rather than looping forever. -/
theorem reactive_cycle_terminates_cex :
    (ReactiveInterpreter.execute cycleProgram).store =
      .obj [("a", .str "y"), ("b", .str "x")] := rfl

/-- C10 amended: the cascade of `ReactiveInterpreter.execute` is a
hardcoded two-level unrolling, not unbounded recursion: on the rule cycle
it fires each rule once and terminates, and on the three-rule chain the
third rule never fires (`d` is never created) because consequences of
chained actions are not re-checked. -/
theorem cascade_depth_two_bound :
    (ReactiveInterpreter.execute cycleProgram).store =
      .obj [("a", .str "y"), ("b", .str "x")] ∧
    (ReactiveInterpreter.execute chainProgram).store =
      .obj [("a", .int 0), ("b", .int 1), ("c", .int 2)] ∧
    objFind ((fun s => match s with
      | Value.obj fs => fs
      | _ => []) (ReactiveInterpreter.execute chainProgram).store) "d" = none :=
  ⟨rfl, rfl, rfl⟩

/-! ## Concrete token streams for the parser claims -/

def tok (t : TokenType) (v : String) (c : Nat) : Token :=
  { type := t, value := v, line := 1, column := c }

/-- The tokens of `react to counter when > 10 { set status = 5 }`. -/
def reactProgramTokens : List Token :=
  [tok .REACT "react" 1, tok .TO "to" 2, tok .IDENTIFIER "counter" 3,
   tok .WHEN "when" 4, tok .GREATER ">" 5, tok .NUMBER "10" 6,
   tok .LEFT_BRACE "" 7, tok .SET "set" 8, tok .IDENTIFIER "status" 9,
   tok .EQUALS "=" 10, tok .NUMBER "5" 11, tok .RIGHT_BRACE "" 12,
   tok .EOF "" 13]

def reactStartTokens : List Token := [tok .REACT "react" 1, tok .EOF "" 2]

/-- The tokens of `set a b` — a set statement with no `=`. -/
def setIdentIdentTokens : List Token :=
  [tok .SET "set" 1, tok .IDENTIFIER "a" 2, tok .IDENTIFIER "b" 3, tok .EOF "" 4]

/-- The tokens of `state { counter: }` — a pair with a missing value. -/
def stateMissingValueTokens : List Token :=
  [tok .STATE "state" 1, tok .LEFT_BRACE "" 2, tok .IDENTIFIER "counter" 3,
   tok .COLON ":" 4, tok .RIGHT_BRACE "" 5, tok .EOF "" 6]

/-- The tokens of `state { x: 1` — no closing brace. -/
def stateNoBraceTokens : List Token :=
  [tok .STATE "state" 1, tok .LEFT_BRACE "" 2, tok .IDENTIFIER "x" 3,
   tok .COLON ":" 4, tok .NUMBER "1" 5, tok .EOF "" 6]

/-- The tokens of the well-formed `set a = 5`. -/
def goodSetTokens : List Token :=
  [tok .SET "set" 1, tok .IDENTIFIER "a" 2, tok .EQUALS "=" 3,
   tok .NUMBER "5" 4, tok .EOF "" 5]

/-- C2: `_parse_statement` dispatches only `state`, `set` and `print`; a
leading REACT token is consumed and discarded with no statement produced,
and parsing the whole react program discards the react header while the
rule body leaks out as a top-level `set` statement — no react statement is
ever built by this parser. -/
theorem react_token_discarded :
    Parser.parse_statement 50 { tokens := reactStartTokens, current := 0 } =
      .ok (none, { tokens := reactStartTokens, current := 1 }) ∧
    Parser.parse reactProgramTokens =
      .ok [Stmt.setStmt [PathPart.seg "status"] (Expr.lit (Value.int 5) "integer")] := by
  constructor
  · rfl
  · simp [Parser.parse, Parser.parse_loop, Parser.parse_statement,
      Parser.parse_set_statement, Parser.parse_state_declaration,
      Parser.parse_print_statement, Parser.parse_path, Parser.parse_path_loop,
      Parser.parse_expression, Parser.parse_value, Parser.parse_pairs,
      Parser.parse_key_value_pair, Parser.parse_object, Parser.parse_array,
      Parser.parse_array_elems, Parser.matchTok, Parser.check, Parser.consume,
      Parser.advance, Parser.previous, Parser.peek, Parser.is_at_end,
      Parser.dummyToken, parse_number_lit, pyIsDigit, pyToNat, isDigitChar,
      reactProgramTokens, tok]

/-- C5 counterexample: on the claim's own example SET IDENTIFIER IDENTIFIER
(no `=`), `parse` raises the `_consume` ParseError for the missing equals
sign even though the stream has not reached end of input (the cursor stands
on the IDENTIFIER at column 3, not on EOF). -/
theorem parse_raises_mid_stream_cex :
    Parser.parse setIdentIdentTokens = .error (.expected .EQUALS 1 3) ∧
    Parser.is_at_end { tokens := setIdentIdentTokens, current := 2 } = false := by
  constructor
  · simp [Parser.parse, Parser.parse_loop, Parser.parse_statement,
      Parser.parse_set_statement, Parser.parse_state_declaration,
      Parser.parse_print_statement, Parser.parse_path, Parser.parse_path_loop,
      Parser.parse_expression, Parser.parse_value, Parser.parse_pairs,
      Parser.parse_key_value_pair, Parser.parse_object, Parser.parse_array,
      Parser.parse_array_elems, Parser.matchTok, Parser.check, Parser.consume,
      Parser.advance, Parser.previous, Parser.peek, Parser.is_at_end,
      Parser.dummyToken, setIdentIdentTokens, tok]
  · rfl

/-- C5 amended: the parser recovers from missing values and a missing
state-declaration closing brace, returning a Program; but a token
`_consume` demands that is not the current token raises a ParseError at
once, whether or not end of input has been reached — mis-positioned input
such as SET IDENTIFIER IDENTIFIER raises rather than returning a
Program. -/
theorem parse_error_behavior :
    Parser.parse stateMissingValueTokens =
      .ok [Stmt.stateDecl [("counter", Expr.lit (Value.str "") "unknown")]] ∧
    Parser.parse stateNoBraceTokens =
      .ok [Stmt.stateDecl [("x", Expr.lit (Value.int 1) "integer")]] ∧
    Parser.parse setIdentIdentTokens = .error (.expected .EQUALS 1 3) ∧
    Parser.parse goodSetTokens =
      .ok [Stmt.setStmt [PathPart.seg "a"] (Expr.lit (Value.int 5) "integer")] := by
  refine ⟨?_, ?_, ?_, ?_⟩ <;>
    simp [Parser.parse, Parser.parse_loop, Parser.parse_statement,
      Parser.parse_set_statement, Parser.parse_state_declaration,
      Parser.parse_print_statement, Parser.parse_path, Parser.parse_path_loop,
      Parser.parse_expression, Parser.parse_value, Parser.parse_pairs,
      Parser.parse_key_value_pair, Parser.parse_object, Parser.parse_array,
      Parser.parse_array_elems, Parser.matchTok, Parser.check, Parser.consume,
      Parser.advance, Parser.previous, Parser.peek, Parser.is_at_end,
      Parser.dummyToken, parse_number_lit, pyIsDigit, pyToNat, isDigitChar,
      stateMissingValueTokens, stateNoBraceTokens, setIdentIdentTokens,
      goodSetTokens, tok]
